import Mathlib

/-!
Shallow embedding of `local_lfs_to_gcs.py`, a Git-LFS custom transfer agent
for Google Cloud Storage.  The agent reads newline-delimited JSON events from
standard input, dispatches them (`init`, `upload`, `download`, `terminate`),
performs HTTP transfers with a public-then-authenticated fallback, and writes
JSON responses to standard output.

External effects (HTTP requests, the `gcloud` token subprocess, the local file
system, the environment variable `GCS_BUCKET`, and the `json.loads` library
routine) are modelled as an explicit environment `Env`; each processing step
returns a trace of its observable effects (`StepResult`): lines written to
standard output and standard error, environment-variable reads, file writes,
whether the authenticated GET was issued, and its control outcome (continue
the loop, break out of it, or raise an exception).

Bytes are modelled as `List Nat`.
-/

/-- One HTTP response as seen through the `requests` library:
`status_code`, the raw content bytes (`iter_content` / `content`),
`text` (the decoded body used in error messages), and the rendering of
`response.json()` (the Google Cloud JSON API returns a JSON body on success;
only its presence in a diagnostic message matters here). -/
structure HttpResponse where
  status : Nat
  body : List Nat
  text : String
  jsonRepr : String
deriving DecidableEq

/-- Fields of one parsed event line that the agent reads via `payload.get`:
`event`, `oid`, `path`.  A missing key yields `none` (Python `None`). -/
structure Payload where
  event : Option String
  oid : Option String
  path : Option String
deriving DecidableEq

/-- Exceptions the Python code can raise out of an event handler. -/
inductive Err where
  /-- `RuntimeError("Error fetching access token: " + stderr)` from
  `get_access_token` when the `gcloud` subprocess exits non-zero. -/
  | credentialError (toolStderr : String)
  /-- `RuntimeError("Error downloading file: {status} {text}")` raised at the
  end of `download`; carries the failing response's status code and body text. -/
  | downloadTransferError (status : Nat) (text : String)
  /-- `RuntimeError("Error uploading file: {status} {text}")` raised by
  `upload` on a non-200 store response. -/
  | uploadTransferError (status : Nat) (text : String)
  /-- Python `TypeError` from using `None` where a string is required
  (e.g. `oid[:2]` or `open(None)` when a payload field is missing). -/
  | typeError
  /-- `FileNotFoundError` from `open(file_path, "rb")` on a missing file. -/
  | fileNotFound (path : String)
deriving DecidableEq

/-- Control outcome of handling one input line: continue the read loop,
break out of it (`break` on `json.JSONDecodeError`), or propagate an
exception out of `handle_request`. -/
inductive Control where
  | cont
  | stop
  | raise (e : Err)
deriving DecidableEq

/-- Observable effects of processing one input line / one event. -/
structure StepResult where
  stdout : List String
  stderr : List String
  /-- names of environment variables read via `os.getenv` during this step -/
  envReads : List String
  /-- files written: destination path together with the bytes written -/
  fsWrites : List (String × List Nat)
  /-- whether the authenticated (private-URL) GET was issued -/
  privateGetAttempted : Bool
  control : Control
deriving DecidableEq

/-- The agent's external world: the `GCS_BUCKET` environment variable,
`requests.get url` (with an optional bearer token sent as an
`Authorization: Bearer` header), `requests.post url token data`,
the result of `gcloud auth print-access-token` (`Except stderrText stdout`),
the readable local file system, and the `json.loads` parser
(`Except message payload`). -/
structure Env where
  gcsBucket : Option String
  get : String → Option String → HttpResponse
  post : String → String → List Nat → HttpResponse
  token : Except String String
  readFile : String → Option (List Nat)
  loads : String → Except String Payload

/-- Python rendering of an optional string in an f-string or `str.format`
slot: `None` prints as `"None"`. -/
def pyShowOpt : Option String → String
  | none => "None"
  | some s => s

/-- The six ASCII whitespace characters stripped by Python's
`bytes.strip()` / `str.strip()` with no argument. -/
def pyWhitespace (c : Char) : Bool :=
  c == ' ' || c == '\t' || c == '\n' || c == '\x0d' ||
    c == Char.ofNat 11 || c == Char.ofNat 12

/-- Python `line.strip()`: remove leading and trailing whitespace. -/
def pyStrip (s : String) : String :=
  String.mk (((s.data.dropWhile pyWhitespace).reverse.dropWhile pyWhitespace).reverse)

/-- One hexadecimal digit, lowercase. -/
def hexDigitChar (n : Nat) : Char :=
  if n < 10 then Char.ofNat (48 + n) else Char.ofNat (87 + n)

/-- Four-digit lowercase hexadecimal rendering used by `\uXXXX` escapes. -/
def hex4 (n : Nat) : String :=
  String.mk [hexDigitChar (n / 4096 % 16), hexDigitChar (n / 256 % 16),
    hexDigitChar (n / 16 % 16), hexDigitChar (n % 16)]

/-- Escaping of one character inside a JSON string literal, following
`json.dumps` with its default `ensure_ascii=True`: short escapes for the
usual control characters, `\uXXXX` for other controls and all non-ASCII
characters (surrogate pairs above the BMP), everything else literal. -/
def jsonEscapeChar (c : Char) : String :=
  if c = '"' then "\\\""
  else if c = '\\' then "\\\\"
  else if c = '\n' then "\\n"
  else if c = '\t' then "\\t"
  else if c = '\x0d' then "\\r"
  else if c = Char.ofNat 8 then "\\b"
  else if c = Char.ofNat 12 then "\\f"
  else if c.toNat < 32 then "\\u" ++ hex4 c.toNat
  else if c.toNat < 128 then String.singleton c
  else if c.toNat < 65536 then "\\u" ++ hex4 c.toNat
  else "\\u" ++ hex4 (55296 + (c.toNat - 65536) / 1024) ++
    "\\u" ++ hex4 (56320 + (c.toNat - 65536) % 1024)

/-- `json.dumps` of a Python string. -/
def jsonString (s : String) : String :=
  "\"" ++ String.join (s.data.map jsonEscapeChar) ++ "\""

/-- `json.dumps` of a Python value that is either a string or `None`
(`None` serializes as `null`). -/
def jsonOpt : Option String → String
  | none => "null"
  | some s => jsonString s

/-- `json.dumps({"event": "init"})`. -/
def dumpsInit : String := "\x7b\"event\": \"init\"\x7d"

/-- `json.dumps({"event": "terminate"})`. -/
def dumpsTerminate : String := "\x7b\"event\": \"terminate\"\x7d"

/-- `json.dumps({"event": "complete", "oid": oid, "path": path})`
(download response). -/
def dumpsDownloadComplete (oid path : Option String) : String :=
  "\x7b\"event\": \"complete\", \"oid\": " ++ jsonOpt oid ++
    ", \"path\": " ++ jsonOpt path ++ "\x7d"

/-- `json.dumps({"event": "complete", "oid": oid, "size": size})`
(upload response). -/
def dumpsUploadComplete (oid : Option String) (size : Nat) : String :=
  "\x7b\"event\": \"complete\", \"oid\": " ++ jsonOpt oid ++
    ", \"size\": " ++ toString size ++ "\x7d"

/-- Python string slicing prefix `s[:n]` (character-based). -/
def pyTake (s : String) (n : Nat) : String := String.mk (s.data.take n)

/-- Python string slicing suffix `s[n:]` (character-based). -/
def pyDrop (s : String) (n : Nat) : String := String.mk (s.data.drop n)

/-- Python `s.startswith(pre)`. -/
def pyStartsWith (s pre : String) : Bool := pre.data.isPrefixOf s.data

/-- Python `s.endswith(suf)`. -/
def pyEndsWith (s suf : String) : Bool := suf.data.isSuffixOf s.data

/-- POSIX `os.path.join` on two components: an absolute second component
replaces the first; otherwise a single `/` separator is inserted unless the
first component is empty or already ends with `/`. -/
def pyPathJoin (a b : String) : String :=
  if pyStartsWith b "/" then b
  else if a = "" ∨ pyEndsWith a "/" then a ++ b
  else a ++ "/" ++ b

/-- `get_temporary_path(oid)`: `.git/lfs/objects` joined with
`oid[:2]/oid[2:4]` and the full oid. -/
def get_temporary_path (oid : String) : String :=
  pyPathJoin (pyPathJoin ".git/lfs/objects"
    (pyPathJoin (pyTake oid 2) (pyTake (pyDrop oid 2) 2))) oid

/-- The public-read URL template `self.public_url`, instantiated with
`str.format(bucket=..., object_name=...)`. -/
def GCSLfsTransferAgent.public_url (bucket object_name : String) : String :=
  "https://storage.googleapis.com/" ++ bucket ++
    "/PIFSC%2FSOD%2Fgit_lfs_test%2F" ++ object_name

/-- The authenticated-read URL template `self.private_url`, instantiated. -/
def GCSLfsTransferAgent.private_url (bucket object_name : String) : String :=
  "https://storage.googleapis.com/storage/v1/b/" ++ bucket ++
    "/o/PIFSC%2FSOD%2Fgit_lfs_test%2F" ++ object_name ++ "?alt=media"

/-- The upload URL template `self.upload_url`, instantiated. -/
def GCSLfsTransferAgent.upload_url (bucket object_name : String) : String :=
  "https://storage.googleapis.com/upload/storage/v1/b/" ++ bucket ++
    "/o?uploadType=media&name=PIFSC%2FSOD%2Fgit_lfs_test%2F" ++ object_name

/-- `response.iter_content(chunk_size=8192)`: the body bytes split into
successive chunks of at most 8192 bytes. -/
def iter_content8192 (l : List Nat) : List (List Nat) :=
  if l = [] then [] else l.take 8192 :: iter_content8192 (l.drop 8192)
termination_by l.length
decreasing_by
  simp only [List.length_drop]
  have : l.length ≠ 0 := by
    simpa [List.length_eq_zero] using (by assumption : ¬ l = [])
  omega

/-- The bytes `_write_to_file` puts in the destination file: every non-empty
8 KiB chunk of the response body, concatenated. -/
def write_to_file_bytes (body : List Nat) : List Nat :=
  ((iter_content8192 body).filter (fun c => !c.isEmpty)).flatten

/-- Chunking at 8 KiB and dropping empty chunks reassembles the body
exactly: `_write_to_file` writes precisely the response bytes. -/
theorem write_to_file_bytes_eq : ∀ (n : Nat) (body : List Nat),
    body.length ≤ n → write_to_file_bytes body = body := by
  intro n
  induction n with
  | zero =>
    intro body h
    have hb : body = [] := by
      cases body with
      | nil => rfl
      | cons a t => simp at h
    subst hb
    rw [write_to_file_bytes, iter_content8192]
    simp
  | succ n ih =>
    intro body h
    rw [write_to_file_bytes, iter_content8192]
    by_cases hb : body = []
    · simp [hb]
    · simp only [hb, if_false]
      have htake : (body.take 8192).isEmpty = false := by
        cases body with
        | nil => exact absurd rfl hb
        | cons a t => simp [List.take]
      have hlen : (body.drop 8192).length ≤ n := by
        simp only [List.length_drop]
        omega
      have ihd := ih (body.drop 8192) hlen
      rw [write_to_file_bytes] at ihd
      simp only [List.filter_cons, htake]
      simp only [Bool.not_false, if_true]
      rw [List.flatten_cons, ihd]
      exact List.take_append_drop 8192 body

/-- `write_to_file_bytes` is the identity: the file receives the body
bytes unchanged. -/
theorem write_to_file_bytes_id (body : List Nat) :
    write_to_file_bytes body = body :=
  write_to_file_bytes_eq body.length body (Nat.le_refl _)

/-- `get_access_token`: runs `gcloud auth print-access-token`; non-zero exit
becomes `RuntimeError("Error fetching access token: " + stderr)`, success
returns the stripped standard output (the environment's `token` field holds
the already-stripped result). -/
def GCSLfsTransferAgent.get_access_token (env : Env) : Except Err String :=
  match env.token with
  | .ok t => .ok t
  | .error e => .error (.credentialError ("Error fetching access token: " ++ e))

/-- `GCSLfsTransferAgent.download(bucket, object_name, destination_path)`.
`object_name` and `destination_path` come from `payload.get` and may be
`None`.  The public GET is issued first; `get_temporary_path` is evaluated
before the status check, so a `None` oid raises `TypeError` regardless of
the status.  Status 200: write the body to the temporary sharded path and
report `destination_path`.  Status 403: fetch a token and retry the private
URL with an `Authorization: Bearer` header; on 200 write the body to
`destination_path` (a `None` destination makes `open` raise `TypeError`).
Any other final status raises
`RuntimeError("Error downloading file: {status} {text}")`. -/
def GCSLfsTransferAgent.download (env : Env) (bucket : String)
    (object_name destination_path : Option String) : StepResult :=
  let response := env.get (GCSLfsTransferAgent.public_url bucket (pyShowOpt object_name)) none
  match object_name with
  | none =>
    -- Python: get_temporary_path(None) raises TypeError after the public GET
    ⟨[], [], [], [], false, .raise .typeError⟩
  | some oid =>
    let temp_path := get_temporary_path oid
    if response.status = 200 then
      ⟨[dumpsDownloadComplete (some oid) destination_path ++ "\n"], [], [],
        [(temp_path, write_to_file_bytes response.body)], false, .cont⟩
    else if response.status = 403 then
      match GCSLfsTransferAgent.get_access_token env with
      | .error e => ⟨[], [], [], [], false, .raise e⟩
      | .ok tok =>
        let response := env.get (GCSLfsTransferAgent.private_url bucket oid) (some tok)
        if response.status = 200 then
          match destination_path with
          | none =>
            -- Python: open(None, "wb") raises TypeError
            ⟨[], [], [], [], true, .raise .typeError⟩
          | some dest =>
            ⟨[dumpsDownloadComplete (some oid) (some dest) ++ "\n"], [], [],
              [(dest, write_to_file_bytes response.body)], true, .cont⟩
        else
          ⟨[], [], [], [], true,
            .raise (.downloadTransferError response.status response.text)⟩
    else
      ⟨[], [], [], [], false,
        .raise (.downloadTransferError response.status response.text)⟩

/-- `GCSLfsTransferAgent.upload(bucket, object_name, file_path)`: always
fetches a token first (building the headers), then opens the file and POSTs
its bytes with `Content-Type: application/octet-stream`.  On status 200 it
logs, reports `os.path.getsize(file_path)` — the local file's byte count —
and returns; any other status raises
`RuntimeError("Error uploading file: {status} {text}")`. -/
def GCSLfsTransferAgent.upload (env : Env) (bucket : String)
    (object_name file_path : Option String) : StepResult :=
  match GCSLfsTransferAgent.get_access_token env with
  | .error e => ⟨[], ["uploading file"], [], [], false, .raise e⟩
  | .ok tok =>
    match file_path with
    | none =>
      -- Python: open(None, "rb") raises TypeError
      ⟨[], ["uploading file"], [], [], false, .raise .typeError⟩
    | some p =>
      match env.readFile p with
      | none => ⟨[], ["uploading file"], [], [], false, .raise (.fileNotFound p)⟩
      | some contents =>
        let response := env.post
          (GCSLfsTransferAgent.upload_url bucket (pyShowOpt object_name)) tok contents
        if response.status = 200 then
          ⟨[dumpsUploadComplete object_name contents.length ++ "\n"],
            ["uploading file",
              "response received: <Response [" ++ toString response.status ++ "]>",
              "completing upload event",
              response.jsonRepr,
              "upload event concluded"],
            [], [], false, .cont⟩
        else
          ⟨[],
            ["uploading file",
              "response received: <Response [" ++ toString response.status ++ "]>"],
            [], [], false,
            .raise (.uploadTransferError response.status response.text)⟩

/-- Stand-in for the Python `repr` of the payload dict interpolated into
`handle_init`'s diagnostic message; only its presence on standard error is
observable to the protocol. -/
def payloadRepr (p : Payload) : String :=
  "payload(" ++ pyShowOpt p.event ++ ", " ++ pyShowOpt p.oid ++ ", " ++
    pyShowOpt p.path ++ ")"

/-- `handle_init`: log, answer `{"event": "init"}`, log again. -/
def GCSLfsTransferAgent.handle_init (payload : Payload) : StepResult :=
  ⟨[dumpsInit ++ "\n"],
    ["Handling init: " ++ payloadRepr payload ++ "\n",
      "Init event processed and response flushed\n"],
    [], [], false, .cont⟩

/-- `handle_terminate`: log, answer `{"event": "terminate"}`, log.  The
`sys.exit(0)` in the source is commented out, so control continues and the
read loop keeps consuming input. -/
def GCSLfsTransferAgent.handle_terminate : StepResult :=
  ⟨[dumpsTerminate ++ "\n"],
    ["Handling terminate event\n", "Terminate event processed\n"],
    [], [], false, .cont⟩

/-- `handle_download`: read `oid` and `path` from the payload, read the
bucket from the `GCS_BUCKET` environment variable, log, and run
`download`. -/
def GCSLfsTransferAgent.handle_download (env : Env) (payload : Payload) : StepResult :=
  let bucket := env.gcsBucket
  let msg := "Handling download for OID: " ++ pyShowOpt payload.oid ++
    ", Path: " ++ pyShowOpt payload.path ++ "\n"
  let r := GCSLfsTransferAgent.download env (pyShowOpt bucket) payload.oid payload.path
  ⟨r.stdout, msg :: r.stderr, "GCS_BUCKET" :: r.envReads, r.fsWrites,
    r.privateGetAttempted, r.control⟩

/-- `handle_upload`: read `oid` and `path` from the payload, read the bucket
from the `GCS_BUCKET` environment variable, log, and run `upload`. -/
def GCSLfsTransferAgent.handle_upload (env : Env) (payload : Payload) : StepResult :=
  let bucket := env.gcsBucket
  let msg := "Handling upload for OID: " ++ pyShowOpt payload.oid ++
    ", Path: " ++ pyShowOpt payload.path ++ "\n"
  let r := GCSLfsTransferAgent.upload env (pyShowOpt bucket) payload.oid payload.path
  ⟨r.stdout, msg :: r.stderr, "GCS_BUCKET" :: r.envReads, r.fsWrites,
    r.privateGetAttempted, r.control⟩

/-- `process_event`: log the event kind, then route on the `event` field;
an unrecognized kind (including a missing field) only logs
`Unsupported event: ...` to standard error and continues. -/
def GCSLfsTransferAgent.process_event (env : Env) (payload : Payload) : StepResult :=
  let procMsg := "Processing event: " ++ pyShowOpt payload.event ++ "\n"
  let r :=
    if payload.event = some "init" then GCSLfsTransferAgent.handle_init payload
    else if payload.event = some "upload" then GCSLfsTransferAgent.handle_upload env payload
    else if payload.event = some "download" then GCSLfsTransferAgent.handle_download env payload
    else if payload.event = some "terminate" then GCSLfsTransferAgent.handle_terminate
    else ⟨[], ["Unsupported event: " ++ pyShowOpt payload.event ++ "\n"], [], [], false, .cont⟩
  ⟨r.stdout, procMsg :: r.stderr, r.envReads, r.fsWrites, r.privateGetAttempted, r.control⟩

/-- The body of `handle_request`'s `async for` loop for one raw input line:
skip whitespace-only lines; otherwise `json.loads(line.strip())` — a parse
failure logs the decode error and breaks the loop, a parsed payload is
dispatched through `process_event`. -/
def processLine (env : Env) (line : String) : StepResult :=
  if pyStrip line = "" then ⟨[], [], [], [], false, .cont⟩
  else
    match env.loads (pyStrip line) with
    | .ok payload => GCSLfsTransferAgent.process_event env payload
    | .error msg =>
      ⟨[], ["Error decoding JSON: " ++ msg ++ "\n"], [], [], false, .stop⟩

/-- Why the read loop stopped: end of input, `break` after a JSON decode
error, or an exception propagating out of `handle_request`. -/
inductive LoopExit where
  | eof
  | parseBreak
  | raised (e : Err)
deriving DecidableEq

/-- Accumulated observable behaviour of the read loop: all output lines in
order, the number of input lines consumed, and how the loop ended. -/
structure LoopResult where
  stdout : List String
  stderr : List String
  envReads : List String
  fsWrites : List (String × List Nat)
  consumed : Nat
  exit : LoopExit
deriving DecidableEq

/-- The read loop of `handle_request` over the remaining input lines. -/
def runLoop (env : Env) : List String → LoopResult
  | [] => ⟨[], [], [], [], 0, .eof⟩
  | line :: rest =>
    let s := processLine env line
    match s.control with
    | .cont =>
      let r := runLoop env rest
      ⟨s.stdout ++ r.stdout, s.stderr ++ r.stderr, s.envReads ++ r.envReads,
        s.fsWrites ++ r.fsWrites, 1 + r.consumed, r.exit⟩
    | .stop => ⟨s.stdout, s.stderr, s.envReads, s.fsWrites, 1, .parseBreak⟩
    | .raise e => ⟨s.stdout, s.stderr, s.envReads, s.fsWrites, 1, .raised e⟩

/-- `handle_request`: announce the agent on standard error, then run the
read loop over standard input's lines. -/
def GCSLfsTransferAgent.handle_request (env : Env) (lines : List String) : LoopResult :=
  let r := runLoop env lines
  ⟨r.stdout, "Transfer agent started\n" :: r.stderr, r.envReads, r.fsWrites,
    r.consumed, r.exit⟩

/-- Exit status of the `__main__` block.  If `handle_request` raises, the
uncaught exception exits the interpreter with status 1.  If the loop
returns (end of input or the decode-error `break`), the next statement is
`sys.stderr("finished\n")` — calling the stream object itself, which raises
`TypeError` — so the interpreter also exits with status 1. -/
def mainExitCode (env : Env) (lines : List String) : Nat :=
  match (GCSLfsTransferAgent.handle_request env lines).exit with
  | .raised _ => 1
  | .eof => 1
  | .parseBreak => 1

/-- The bytes of `b"hello"`. -/
def helloBytes : List Nat := [104, 101, 108, 108, 111]

/-- The bytes of `b"world"`. -/
def worldBytes : List Nat := [119, 111, 114, 108, 100]

/-- A concrete `json.loads` oracle for a handful of protocol lines, used to
instantiate the environment at concrete inputs. -/
def demoLoads : String → Except String Payload := fun s =>
  if s = "\x7b\"event\": \"terminate\"\x7d" then .ok ⟨some "terminate", none, none⟩
  else if s = "\x7b\"event\": \"init\"\x7d" then .ok ⟨some "init", none, none⟩
  else if s = "\x7b\"event\": \"download\", \"oid\": \"ab12cd\", \"path\": \"/tmp/out\"\x7d" then
    .ok ⟨some "download", some "ab12cd", some "/tmp/out"⟩
  else if s = "\x7b\"event\": \"upload\", \"oid\": \"ab12cd\", \"path\": \"/tmp/f\"\x7d" then
    .ok ⟨some "upload", some "ab12cd", some "/tmp/f"⟩
  else if s = "\x7b\"event\": \"ping\"\x7d" then .ok ⟨some "ping", none, none⟩
  else .error "Expecting value: line 1 column 1 (char 0)"

/-- Concrete environment: the public GET answers 200 with body `b"hello"`;
a 42-byte local file backs uploads, which the store accepts with 200. -/
def envPub200 : Env :=
  ⟨some "bkt",
    fun _ auth =>
      match auth with
      | none => ⟨200, helloBytes, "hello", "\x7b\x7d"⟩
      | some _ => ⟨500, [], "unexpected", "\x7b\x7d"⟩,
    fun _ _ _ => ⟨200, [], "ok", "\x7b\x7d"⟩,
    .ok "tok",
    fun _ => some (List.replicate 42 7),
    demoLoads⟩

/-- Concrete environment: the public GET answers 403, the authenticated GET
answers 200 with body `b"world"`. -/
def envPub403 : Env :=
  ⟨some "bkt",
    fun _ auth =>
      match auth with
      | none => ⟨403, [], "forbidden", "\x7b\x7d"⟩
      | some _ => ⟨200, worldBytes, "world", "\x7b\x7d"⟩,
    fun _ _ _ => ⟨200, [], "ok", "\x7b\x7d"⟩,
    .ok "tok",
    fun _ => some (List.replicate 42 7),
    demoLoads⟩

/-- Concrete environment: the public GET answers 404. -/
def envPub404 : Env :=
  ⟨some "bkt",
    fun _ auth =>
      match auth with
      | none => ⟨404, [], "not found", "\x7b\x7d"⟩
      | some _ => ⟨200, worldBytes, "world", "\x7b\x7d"⟩,
    fun _ _ _ => ⟨200, [], "ok", "\x7b\x7d"⟩,
    .ok "tok",
    fun _ => some (List.replicate 42 7),
    demoLoads⟩

/-- C1 counterexample: with the public GET returning 200 and body
`b"hello"`, the response line for oid `ab12cd` and caller path `/tmp/out`
does not carry the temporary sharded path
`.git/lfs/objects/ab/12/ab12cd` in its `path` field — the source puts
`destination_path`, not `temp_path`, into the response. -/
theorem download_public200_response_path_is_not_temp_path :
    (GCSLfsTransferAgent.download envPub200 "bkt" (some "ab12cd")
        (some "/tmp/out")).stdout ≠
      [dumpsDownloadComplete (some "ab12cd")
        (some (get_temporary_path "ab12cd")) ++ "\n"] := by
  decide

/-- C1 (amended): for every download whose public GET returns 200, the body
bytes are written (in 8 KiB chunks) to the temporary sharded path derived
from the oid, while the response line reports the caller-supplied
destination path; the bytes written equal the response body exactly. -/
theorem download_public200_writes_temp_reports_caller_path
    (env : Env) (bucket oid dest : String)
    (h : (env.get (GCSLfsTransferAgent.public_url bucket oid) none).status = 200) :
    GCSLfsTransferAgent.download env bucket (some oid) (some dest) =
      ⟨[dumpsDownloadComplete (some oid) (some dest) ++ "\n"], [], [],
        [(get_temporary_path oid,
          (env.get (GCSLfsTransferAgent.public_url bucket oid) none).body)],
        false, .cont⟩ := by
  simp [GCSLfsTransferAgent.download, pyShowOpt, h, write_to_file_bytes_id]

/-- C1 witness: the amended statement instantiated at oid `ab12cd`,
destination `/tmp/out` and the concrete 200-environment. -/
theorem download_public200_writes_temp_reports_caller_path_witness :
    (envPub200.get (GCSLfsTransferAgent.public_url "bkt" "ab12cd") none).status = 200 ∧
    GCSLfsTransferAgent.download envPub200 "bkt" (some "ab12cd") (some "/tmp/out") =
      ⟨[dumpsDownloadComplete (some "ab12cd") (some "/tmp/out") ++ "\n"], [], [],
        [(get_temporary_path "ab12cd",
          (envPub200.get (GCSLfsTransferAgent.public_url "bkt" "ab12cd") none).body)],
        false, .cont⟩ :=
  ⟨rfl, download_public200_writes_temp_reports_caller_path envPub200 "bkt" "ab12cd" "/tmp/out" rfl⟩

/-- A raw input line carrying a terminate event. -/
def termLine : String := "\x7b\"event\": \"terminate\"\x7d\n"

/-- A raw input line carrying an init event. -/
def initLine : String := "\x7b\"event\": \"init\"\x7d\n"

/-- A raw input line carrying a well-formed download event. -/
def dlLine : String :=
  "\x7b\"event\": \"download\", \"oid\": \"ab12cd\", \"path\": \"/tmp/out\"\x7d\n"

/-- A raw input line carrying a well-formed upload event. -/
def ulLine : String :=
  "\x7b\"event\": \"upload\", \"oid\": \"ab12cd\", \"path\": \"/tmp/f\"\x7d\n"

/-- A raw input line carrying an unrecognized event kind. -/
def pingLine : String := "\x7b\"event\": \"ping\"\x7d\n"

/-- A raw input line that is not valid JSON. -/
def badLine : String := "not json\n"

/-- A raw input line consisting only of whitespace. -/
def wsLine : String := "  \t \n"

/-- `download` never reads an environment variable itself (the bucket is
read by `handle_download`, before `download` is called). -/
theorem download_envReads (env : Env) (bucket : String) (o d : Option String) :
    (GCSLfsTransferAgent.download env bucket o d).envReads = [] := by
  rcases o with _ | oid <;> rcases d with _ | dest <;>
    simp only [GCSLfsTransferAgent.download] <;>
    (repeat' split) <;> rfl

/-- `upload` never reads an environment variable itself. -/
theorem upload_envReads (env : Env) (bucket : String) (o d : Option String) :
    (GCSLfsTransferAgent.upload env bucket o d).envReads = [] := by
  rcases o with _ | oid <;> rcases d with _ | dest <;>
    simp only [GCSLfsTransferAgent.upload] <;>
    (repeat' split) <;> rfl

/-- C2 counterexample: feeding a terminate event followed by an init event,
the loop consumes both lines and answers both — the `sys.exit(0)` after the
terminate response is commented out, so input keeps being consumed and the
process (which only ends at end-of-input) exits with status 1, not 0. -/
theorem terminate_then_more_input_is_consumed :
    (GCSLfsTransferAgent.handle_request envPub200 [termLine, initLine]).consumed = 2 ∧
    (GCSLfsTransferAgent.handle_request envPub200 [termLine, initLine]).stdout =
      [dumpsTerminate ++ "\n", dumpsInit ++ "\n"] ∧
    mainExitCode envPub200 [termLine, initLine] = 1 := by
  decide

/-- C2 (amended): a terminate event writes exactly the line
`{"event": "terminate"}` to standard output, but the process does not exit
there: the read loop continues and consumes the next input line. -/
theorem terminate_emits_line_and_loop_continues
    (env : Env) (payload : Payload) (line : String) (rest : List String)
    (hev : payload.event = some "terminate")
    (hline : pyStrip line ≠ "")
    (hparse : env.loads (pyStrip line) = .ok payload) :
    GCSLfsTransferAgent.process_event env payload =
      ⟨[dumpsTerminate ++ "\n"],
        ["Processing event: terminate\n", "Handling terminate event\n",
          "Terminate event processed\n"], [], [], false, .cont⟩ ∧
    (runLoop env (line :: rest)).consumed = 1 + (runLoop env rest).consumed ∧
    (runLoop env (line :: rest)).stdout =
      (dumpsTerminate ++ "\n") :: (runLoop env rest).stdout := by
  have hpe : GCSLfsTransferAgent.process_event env payload =
      ⟨[dumpsTerminate ++ "\n"],
        ["Processing event: terminate\n", "Handling terminate event\n",
          "Terminate event processed\n"], [], [], false, .cont⟩ := by
    simp [GCSLfsTransferAgent.process_event, hev,
      GCSLfsTransferAgent.handle_terminate, pyShowOpt]
  refine ⟨hpe, ?_, ?_⟩ <;>
    simp [runLoop, processLine, hline, hparse, hpe]

/-- C2 witness: the amended statement at the concrete terminate line with
one further init line behind it. -/
theorem terminate_emits_line_and_loop_continues_witness :
    pyStrip termLine ≠ "" ∧
    envPub200.loads (pyStrip termLine) = .ok ⟨some "terminate", none, none⟩ ∧
    (GCSLfsTransferAgent.process_event envPub200 ⟨some "terminate", none, none⟩ =
      ⟨[dumpsTerminate ++ "\n"],
        ["Processing event: terminate\n", "Handling terminate event\n",
          "Terminate event processed\n"], [], [], false, .cont⟩ ∧
    (runLoop envPub200 (termLine :: [initLine])).consumed =
      1 + (runLoop envPub200 [initLine]).consumed ∧
    (runLoop envPub200 (termLine :: [initLine])).stdout =
      (dumpsTerminate ++ "\n") :: (runLoop envPub200 [initLine]).stdout) :=
  ⟨by decide, rfl,
    terminate_emits_line_and_loop_continues envPub200 ⟨some "terminate", none, none⟩
      termLine [initLine] rfl (by decide) rfl⟩

/-- C3 counterexample: handling a single download event reads `GCS_BUCKET`
from the environment during event handling, and a session with two download
events reads it twice — the bucket is not read once at startup
(`handle_request` performs no environment read before the loop). -/
theorem bucket_read_during_event_handling :
    (processLine envPub200 dlLine).envReads = ["GCS_BUCKET"] ∧
    (GCSLfsTransferAgent.handle_request envPub200 [dlLine, dlLine]).envReads =
      ["GCS_BUCKET", "GCS_BUCKET"] := by
  decide

/-- C3 (amended): the `GCS_BUCKET` environment variable is read by the
download and upload handlers on every such event (once per event), rather
than once at startup. -/
theorem handlers_read_bucket_on_each_transfer_event
    (env : Env) (payload : Payload)
    (h : payload.event = some "download" ∨ payload.event = some "upload") :
    (GCSLfsTransferAgent.process_event env payload).envReads = ["GCS_BUCKET"] := by
  rcases h with h | h <;>
    simp [GCSLfsTransferAgent.process_event, h,
      GCSLfsTransferAgent.handle_download, GCSLfsTransferAgent.handle_upload,
      download_envReads, upload_envReads]

/-- C3 witness: the amended statement at a concrete download payload. -/
theorem handlers_read_bucket_on_each_transfer_event_witness :
    ((⟨some "download", some "ab12cd", some "/tmp/out"⟩ : Payload).event =
        some "download" ∨
      (⟨some "download", some "ab12cd", some "/tmp/out"⟩ : Payload).event =
        some "upload") ∧
    (GCSLfsTransferAgent.process_event envPub200
      ⟨some "download", some "ab12cd", some "/tmp/out"⟩).envReads = ["GCS_BUCKET"] :=
  ⟨Or.inl rfl,
    handlers_read_bucket_on_each_transfer_event envPub200
      ⟨some "download", some "ab12cd", some "/tmp/out"⟩ (Or.inl rfl)⟩

/-- C4 (code_bug): with standard input empty (immediate, clean end of
input), the loop returns normally but the `__main__` epilogue calls
`sys.stderr("finished\n")` — the stream object is not callable — so the
interpreter dies on a `TypeError` and the exit status is 1, never the 0 the
specification requires for clean end-of-input. -/
theorem main_exits_nonzero_on_clean_eof :
    mainExitCode envPub200 [] = 1 ∧
    GCSLfsTransferAgent.handle_request envPub200 [] =
      ⟨[], ["Transfer agent started\n"], [], [], 0, .eof⟩ := by
  decide

/-- C5 (confirmed): when the public GET returns 403 and the authenticated
GET (with the bearer token) returns 200, the body bytes are written to the
caller-supplied destination path, and the response line's `path` field is
that same caller-supplied path. -/
theorem download_403_then_auth200_writes_caller_path
    (env : Env) (bucket oid dest tok : String)
    (h1 : (env.get (GCSLfsTransferAgent.public_url bucket oid) none).status = 403)
    (h2 : env.token = .ok tok)
    (h3 : (env.get (GCSLfsTransferAgent.private_url bucket oid) (some tok)).status = 200) :
    GCSLfsTransferAgent.download env bucket (some oid) (some dest) =
      ⟨[dumpsDownloadComplete (some oid) (some dest) ++ "\n"], [], [],
        [(dest, (env.get (GCSLfsTransferAgent.private_url bucket oid) (some tok)).body)],
        true, .cont⟩ := by
  simp [GCSLfsTransferAgent.download, GCSLfsTransferAgent.get_access_token,
    pyShowOpt, h1, h2, h3, write_to_file_bytes_id]

/-- C5 witness: the statement at oid `ab12cd`, destination `/tmp/out` and
the concrete 403-then-200 environment whose authenticated body is
`b"world"`. -/
theorem download_403_then_auth200_writes_caller_path_witness :
    (envPub403.get (GCSLfsTransferAgent.public_url "bkt" "ab12cd") none).status = 403 ∧
    envPub403.token = .ok "tok" ∧
    (envPub403.get (GCSLfsTransferAgent.private_url "bkt" "ab12cd") (some "tok")).status = 200 ∧
    GCSLfsTransferAgent.download envPub403 "bkt" (some "ab12cd") (some "/tmp/out") =
      ⟨[dumpsDownloadComplete (some "ab12cd") (some "/tmp/out") ++ "\n"], [], [],
        [("/tmp/out",
          (envPub403.get (GCSLfsTransferAgent.private_url "bkt" "ab12cd") (some "tok")).body)],
        true, .cont⟩ :=
  ⟨rfl, rfl, rfl,
    download_403_then_auth200_writes_caller_path envPub403 "bkt" "ab12cd" "/tmp/out" "tok"
      rfl rfl rfl⟩

/-- The 42-byte local file used to instantiate upload claims. -/
def file42 : List Nat := List.replicate 42 7

/-- C6 (confirmed): for a well-formed upload event whose store POST returns
200, the response line reports `size` equal to the byte length of the local
file at the given path (for every store response, whatever its body — the
size never comes from the network). -/
theorem upload_200_reports_local_file_size
    (env : Env) (oid path tok : String) (contents : List Nat)
    (h1 : env.token = .ok tok)
    (h2 : env.readFile path = some contents)
    (h3 : (env.post (GCSLfsTransferAgent.upload_url (pyShowOpt env.gcsBucket) oid)
        tok contents).status = 200) :
    (GCSLfsTransferAgent.process_event env ⟨some "upload", some oid, some path⟩).stdout =
      [dumpsUploadComplete (some oid) contents.length ++ "\n"] ∧
    (GCSLfsTransferAgent.process_event env ⟨some "upload", some oid, some path⟩).control =
      .cont := by
  simp only [pyShowOpt] at h3
  constructor <;>
    simp [GCSLfsTransferAgent.process_event, GCSLfsTransferAgent.handle_upload,
      GCSLfsTransferAgent.upload, GCSLfsTransferAgent.get_access_token,
      pyShowOpt, h1, h2, h3]

/-- C6 witness: the statement at the concrete environment whose local file
at `/tmp/f` is 42 bytes long and whose store accepts the upload. -/
theorem upload_200_reports_local_file_size_witness :
    envPub200.token = .ok "tok" ∧
    envPub200.readFile "/tmp/f" = some file42 ∧
    (envPub200.post (GCSLfsTransferAgent.upload_url (pyShowOpt envPub200.gcsBucket) "ab12cd")
        "tok" file42).status = 200 ∧
    ((GCSLfsTransferAgent.process_event envPub200
        ⟨some "upload", some "ab12cd", some "/tmp/f"⟩).stdout =
      [dumpsUploadComplete (some "ab12cd") file42.length ++ "\n"] ∧
    (GCSLfsTransferAgent.process_event envPub200
        ⟨some "upload", some "ab12cd", some "/tmp/f"⟩).control = .cont) :=
  ⟨rfl, rfl, rfl,
    upload_200_reports_local_file_size envPub200 "ab12cd" "/tmp/f" "tok" file42
      rfl rfl rfl⟩

/-- C7 (confirmed, assuming the credential tool succeeds): the authenticated
GET is issued exactly when the public GET returns 403; a public status other
than 200 or 403 raises the transfer error with the public response's status
and body text; a 403 followed by a non-200 authenticated status raises the
transfer error with the authenticated response's status and body text — and
in both failure cases nothing is written to standard output. -/
theorem download_fallback_iff_403_and_failure_raises
    (env : Env) (bucket oid dest tok : String)
    (htok : env.token = .ok tok) :
    ((GCSLfsTransferAgent.download env bucket (some oid) (some dest)).privateGetAttempted =
        true ↔
      (env.get (GCSLfsTransferAgent.public_url bucket oid) none).status = 403) ∧
    ((env.get (GCSLfsTransferAgent.public_url bucket oid) none).status ≠ 200 →
      (env.get (GCSLfsTransferAgent.public_url bucket oid) none).status ≠ 403 →
      GCSLfsTransferAgent.download env bucket (some oid) (some dest) =
        ⟨[], [], [], [], false,
          .raise (.downloadTransferError
            (env.get (GCSLfsTransferAgent.public_url bucket oid) none).status
            (env.get (GCSLfsTransferAgent.public_url bucket oid) none).text)⟩) ∧
    ((env.get (GCSLfsTransferAgent.public_url bucket oid) none).status = 403 →
      (env.get (GCSLfsTransferAgent.private_url bucket oid) (some tok)).status ≠ 200 →
      GCSLfsTransferAgent.download env bucket (some oid) (some dest) =
        ⟨[], [], [], [], true,
          .raise (.downloadTransferError
            (env.get (GCSLfsTransferAgent.private_url bucket oid) (some tok)).status
            (env.get (GCSLfsTransferAgent.private_url bucket oid) (some tok)).text)⟩) := by
  have hga : GCSLfsTransferAgent.get_access_token env = .ok tok := by
    simp [GCSLfsTransferAgent.get_access_token, htok]
  by_cases h200 : (env.get (GCSLfsTransferAgent.public_url bucket oid) none).status = 200
  · simp [GCSLfsTransferAgent.download, pyShowOpt, h200]
  · by_cases h403 : (env.get (GCSLfsTransferAgent.public_url bucket oid) none).status = 403
    · by_cases hpriv :
        (env.get (GCSLfsTransferAgent.private_url bucket oid) (some tok)).status = 200
      · simp [GCSLfsTransferAgent.download, pyShowOpt, h200, h403, hga, hpriv]
      · simp [GCSLfsTransferAgent.download, pyShowOpt, h200, h403, hga, hpriv]
    · simp [GCSLfsTransferAgent.download, pyShowOpt, h200, h403]

/-- C7 witness: the statement at the concrete environment whose public GET
returns 404 (so the fallback is not attempted and the transfer error carries
status 404 and body text `not found`). -/
theorem download_fallback_iff_403_and_failure_raises_witness :
    envPub404.token = .ok "tok" ∧
    (((GCSLfsTransferAgent.download envPub404 "bkt" (some "ab12cd")
          (some "/tmp/out")).privateGetAttempted = true ↔
        (envPub404.get (GCSLfsTransferAgent.public_url "bkt" "ab12cd") none).status = 403) ∧
      ((envPub404.get (GCSLfsTransferAgent.public_url "bkt" "ab12cd") none).status ≠ 200 →
        (envPub404.get (GCSLfsTransferAgent.public_url "bkt" "ab12cd") none).status ≠ 403 →
        GCSLfsTransferAgent.download envPub404 "bkt" (some "ab12cd") (some "/tmp/out") =
          ⟨[], [], [], [], false,
            .raise (.downloadTransferError
              (envPub404.get (GCSLfsTransferAgent.public_url "bkt" "ab12cd") none).status
              (envPub404.get (GCSLfsTransferAgent.public_url "bkt" "ab12cd") none).text)⟩) ∧
      ((envPub404.get (GCSLfsTransferAgent.public_url "bkt" "ab12cd") none).status = 403 →
        (envPub404.get (GCSLfsTransferAgent.private_url "bkt" "ab12cd") (some "tok")).status ≠ 200 →
        GCSLfsTransferAgent.download envPub404 "bkt" (some "ab12cd") (some "/tmp/out") =
          ⟨[], [], [], [], true,
            .raise (.downloadTransferError
              (envPub404.get (GCSLfsTransferAgent.private_url "bkt" "ab12cd") (some "tok")).status
              (envPub404.get (GCSLfsTransferAgent.private_url "bkt" "ab12cd") (some "tok")).text)⟩)) :=
  ⟨rfl,
    download_fallback_iff_403_and_failure_raises envPub404 "bkt" "ab12cd" "/tmp/out" "tok" rfl⟩

/-- C8 (confirmed): a non-blank input line that fails JSON parsing stops
the read loop — only that line is consumed, the loop ends with the decode
`break`, no further lines are read — and nothing is written to standard
output, only the decode diagnostic to standard error. -/
theorem malformed_json_stops_loop_without_response
    (env : Env) (line : String) (rest : List String) (msg : String)
    (hline : pyStrip line ≠ "")
    (hparse : env.loads (pyStrip line) = .error msg) :
    runLoop env (line :: rest) =
      ⟨[], ["Error decoding JSON: " ++ msg ++ "\n"], [], [], 1, .parseBreak⟩ := by
  simp [runLoop, processLine, hline, hparse]

/-- C8 witness: the statement at the concrete non-JSON line `not json`. -/
theorem malformed_json_stops_loop_without_response_witness :
    pyStrip badLine ≠ "" ∧
    envPub200.loads (pyStrip badLine) =
      .error "Expecting value: line 1 column 1 (char 0)" ∧
    runLoop envPub200 (badLine :: [initLine]) =
      ⟨[], ["Error decoding JSON: Expecting value: line 1 column 1 (char 0)" ++ "\n"],
        [], [], 1, .parseBreak⟩ :=
  ⟨by decide, rfl,
    malformed_json_stops_loop_without_response envPub200 badLine [initLine]
      "Expecting value: line 1 column 1 (char 0)" (by decide) rfl⟩

/-- C9 (confirmed): a parsed event whose `event` field is none of `init`,
`upload`, `download`, `terminate` produces no standard-output line, produces
two diagnostic standard-error lines, and the loop goes on: the next lines
are processed as if the unrecognized event were not there. -/
theorem unknown_event_logs_only_and_loop_continues
    (env : Env) (line : String) (rest : List String) (payload : Payload)
    (hline : pyStrip line ≠ "")
    (hparse : env.loads (pyStrip line) = .ok payload)
    (h1 : payload.event ≠ some "init")
    (h2 : payload.event ≠ some "upload")
    (h3 : payload.event ≠ some "download")
    (h4 : payload.event ≠ some "terminate") :
    (processLine env line).stdout = [] ∧
    (processLine env line).stderr =
      ["Processing event: " ++ pyShowOpt payload.event ++ "\n",
        "Unsupported event: " ++ pyShowOpt payload.event ++ "\n"] ∧
    (runLoop env (line :: rest)).stdout = (runLoop env rest).stdout ∧
    (runLoop env (line :: rest)).consumed = 1 + (runLoop env rest).consumed ∧
    (runLoop env (line :: rest)).exit = (runLoop env rest).exit := by
  have hpl : processLine env line =
      ⟨[], ["Processing event: " ++ pyShowOpt payload.event ++ "\n",
        "Unsupported event: " ++ pyShowOpt payload.event ++ "\n"], [], [], false, .cont⟩ := by
    simp [processLine, hline, hparse, GCSLfsTransferAgent.process_event, h1, h2, h3, h4]
  refine ⟨?_, ?_, ?_, ?_, ?_⟩ <;> simp [runLoop, hpl]

/-- C9 witness: the statement at the concrete unrecognized event `ping`. -/
theorem unknown_event_logs_only_and_loop_continues_witness :
    pyStrip pingLine ≠ "" ∧
    envPub200.loads (pyStrip pingLine) = .ok ⟨some "ping", none, none⟩ ∧
    ((processLine envPub200 pingLine).stdout = [] ∧
      (processLine envPub200 pingLine).stderr =
        ["Processing event: " ++ pyShowOpt (some "ping") ++ "\n",
          "Unsupported event: " ++ pyShowOpt (some "ping") ++ "\n"] ∧
      (runLoop envPub200 (pingLine :: [initLine])).stdout =
        (runLoop envPub200 [initLine]).stdout ∧
      (runLoop envPub200 (pingLine :: [initLine])).consumed =
        1 + (runLoop envPub200 [initLine]).consumed ∧
      (runLoop envPub200 (pingLine :: [initLine])).exit =
        (runLoop envPub200 [initLine]).exit) :=
  ⟨by decide, rfl,
    unknown_event_logs_only_and_loop_continues envPub200 pingLine [initLine]
      ⟨some "ping", none, none⟩ (by decide) rfl
      (by decide) (by decide) (by decide) (by decide)⟩

/-- C10 (confirmed): a line that is empty or whitespace-only is skipped
entirely: no output on either stream, no file or environment effect, the
parser is never consulted (the step is the same under every `json.loads`
oracle), the loop does not terminate and goes on with the next line. -/
theorem blank_line_skipped_without_parsing
    (env : Env) (line : String) (rest : List String)
    (hline : pyStrip line = "") :
    processLine env line = ⟨[], [], [], [], false, .cont⟩ ∧
    (∀ f : String → Except String Payload,
      processLine
        ⟨env.gcsBucket, env.get, env.post, env.token, env.readFile, f⟩ line =
        processLine env line) ∧
    runLoop env (line :: rest) =
      ⟨(runLoop env rest).stdout, (runLoop env rest).stderr,
        (runLoop env rest).envReads, (runLoop env rest).fsWrites,
        1 + (runLoop env rest).consumed, (runLoop env rest).exit⟩ := by
  refine ⟨by simp [processLine, hline], fun f => by simp [processLine, hline], ?_⟩
  simp [runLoop, processLine, hline]

/-- C10 witness: the statement at the concrete whitespace-only line. -/
theorem blank_line_skipped_without_parsing_witness :
    pyStrip wsLine = "" ∧
    (processLine envPub200 wsLine = ⟨[], [], [], [], false, .cont⟩ ∧
      (∀ f : String → Except String Payload,
        processLine
          ⟨envPub200.gcsBucket, envPub200.get, envPub200.post, envPub200.token,
            envPub200.readFile, f⟩ wsLine =
          processLine envPub200 wsLine) ∧
      runLoop envPub200 (wsLine :: [initLine]) =
        ⟨(runLoop envPub200 [initLine]).stdout, (runLoop envPub200 [initLine]).stderr,
          (runLoop envPub200 [initLine]).envReads, (runLoop envPub200 [initLine]).fsWrites,
          1 + (runLoop envPub200 [initLine]).consumed,
          (runLoop envPub200 [initLine]).exit⟩) :=
  ⟨by decide,
    blank_line_skipped_without_parsing envPub200 wsLine [initLine] (by decide)⟩
